import Mathlib

/-!
Verification of the Cluster-Helper repository (a node-local SLO control
daemon) against its natural-language specification.

Shallow embedding conventions:
* Python `float` values (latencies, thresholds, severities, timestamps) are
  modelled as `ℚ`; all arithmetic appearing in the embedded code (comparison,
  mean, normalised severity) is exact on the inputs the claims mention.
* Python `str` values (GPU uuids, device names, file rows) are modelled as
  `List Char` so that every operation is structurally computable.
* Python `dict` (which preserves insertion order) is modelled as an
  association list `List (key × value)`; `dict_get` is `d[k]` / `d.get(k)`
  and `dict_set` is `d[k] = v` (update in place, append if the key is new).
* `time.time()` is passed in as an explicit `now : ℚ` argument.
-/

namespace ClusterHelper

/-- `d.get(k)`: first binding of `k` in an insertion-ordered dictionary. -/
def dict_get {α β : Type} [DecidableEq α] : List (α × β) → α → Option β
  | [], _ => none
  | (q, v) :: rest, k => if q = k then some v else dict_get rest k

/-- `d[k] = v`: replace the binding of `k` in place, appending if absent. -/
def dict_set {α β : Type} [DecidableEq α] : List (α × β) → α → β → List (α × β)
  | [], k, v => [(k, v)]
  | (q, u) :: rest, k, v =>
      if q = k then (q, v) :: rest else (q, u) :: dict_set rest k v

/-- `state.py` `ViolationState`: the four FSM states of a tenant. -/
inductive ViolationState : Type
  | NORMAL
  | DEGRADED
  | VIOLATED
  | COOLDOWN
deriving DecidableEq, Repr

/-- `state.py` `TenantState`: per-tenant record tracked by the manager.
`latency_history` is the `deque(maxlen=10)` of `(timestamp, latency_ms)`. -/
structure TenantState : Type where
  pid : Int
  gpu_uuid : Option (List Char) := none
  state : ViolationState := ViolationState.NORMAL
  latency_history : List (ℚ × ℚ) := []
  violation_count : Int := 0
  last_action_time : ℚ := 0
  cooldown_remaining : Int := 0
deriving DecidableEq, Repr

/-- `TenantState(pid=pid)`: the record created on first observation. -/
def default_tenant (pid : Int) : TenantState := { pid := pid }

/-- `TenantState.add_latency_measurement`: append to the bounded deque,
evicting the oldest entry beyond capacity 10. -/
def add_latency_measurement (t : TenantState) (latency_ms now : ℚ) : TenantState :=
  let h := t.latency_history ++ [(now, latency_ms)]
  { t with latency_history := h.drop (h.length - 10) }

/-- `TenantState.get_recent_latencies`: the values of the most recent
`count` measurements (`list(history)[-count:]`). -/
def get_recent_latencies (t : TenantState) (count : Nat) : List ℚ :=
  (t.latency_history.drop (t.latency_history.length - count)).map Prod.snd

/-- `TenantState.is_in_cooldown`. -/
def is_in_cooldown (t : TenantState) : Bool :=
  decide (t.state = ViolationState.COOLDOWN ∧ 0 < t.cooldown_remaining)

/-- `TenantState.decrement_cooldown`. -/
def decrement_cooldown (t : TenantState) : TenantState :=
  let t1 := if 0 < t.cooldown_remaining then
      { t with cooldown_remaining := t.cooldown_remaining - 1 } else t
  if t1.cooldown_remaining ≤ 0 ∧ t1.state = ViolationState.COOLDOWN then
    { t1 with state := ViolationState.NORMAL } else t1

/-- `state.py` `Violation`. -/
structure Violation : Type where
  victim_pid : Int
  victim_gpu : List Char
  bully_pids : List Int
  violation_severity : ℚ
  timestamp : ℚ
deriving DecidableEq, Repr

/-- `state.py` `StateManager`: configuration plus the insertion-ordered
tenant dictionary. -/
structure StateManager : Type where
  tail_threshold_ms : ℚ
  persistence_windows : Int
  cooldown_observations : Int
  tenant_states : List (Int × TenantState)
deriving DecidableEq, Repr

/-- `StateManager.__init__`. -/
def mk_state_manager (tail_threshold_ms : ℚ) (persistence_windows cooldown_observations : Int) :
    StateManager :=
  { tail_threshold_ms := tail_threshold_ms
    persistence_windows := persistence_windows
    cooldown_observations := cooldown_observations
    tenant_states := [] }

/-- The FSM transition applied by `StateManager._update_tenant_state` after
the measurement has been appended (lines 156-173 of `state.py`). -/
def update_tenant_fsm (threshold : ℚ) (persistence : Int) (t : TenantState)
    (latency_ms : ℚ) : TenantState :=
  if threshold < latency_ms then
    match t.state with
    | ViolationState.NORMAL =>
        { t with state := ViolationState.DEGRADED, violation_count := 1 }
    | ViolationState.DEGRADED =>
        let c := t.violation_count + 1
        if persistence ≤ c then
          { t with state := ViolationState.VIOLATED, violation_count := c }
        else { t with violation_count := c }
    | _ => t
  else
    match t.state with
    | ViolationState.DEGRADED =>
        { t with state := ViolationState.NORMAL, violation_count := 0 }
    | ViolationState.VIOLATED =>
        { t with state := ViolationState.NORMAL, violation_count := 0 }
    | _ => t

/-- `StateManager._update_tenant_state`: create the record if absent, append
the measurement, apply the FSM transition. -/
def update_tenant_state (m : StateManager) (pid : Int) (latency_ms now : ℚ) :
    StateManager :=
  let t0 := (dict_get m.tenant_states pid).getD (default_tenant pid)
  let t1 := add_latency_measurement t0 latency_ms now
  let t2 := update_tenant_fsm m.tail_threshold_ms m.persistence_windows t1 latency_ms
  { m with tenant_states := dict_set m.tenant_states pid t2 }

/-- `StateManager._process_cooldowns`: decrement every tenant currently in
cooldown. -/
def process_cooldowns (m : StateManager) : StateManager :=
  { m with tenant_states :=
      m.tenant_states.map (fun pt =>
        (pt.1, if is_in_cooldown pt.2 then decrement_cooldown pt.2 else pt.2)) }

/-- `StateManager._cleanup_stale_tenants`: drop every record whose pid is not
among the active pids. -/
def cleanup_stale_tenants (m : StateManager) (active_pids : List Int) : StateManager :=
  { m with tenant_states := m.tenant_states.filter (fun pt => active_pids.contains pt.1) }

/-- Decimal digits of a natural number, most significant first; the fuel
argument only bounds the recursion depth and is always sufficient here. -/
def nat_digits : Nat → Nat → List Char
  | _, 0 => []
  | n, fuel + 1 =>
      if n < 10 then [Char.ofNat (48 + n)]
      else nat_digits (n / 10) fuel ++ [Char.ofNat (48 + n % 10)]

/-- Python `f"{n:08d}"` for a natural number. -/
def format08d (n : Nat) : List Char :=
  let d := nat_digits n 30
  List.replicate (8 - d.length) '0' ++ d

/-- The mock uuid `f"GPU-{pid % 2:08d}-mock-uuid"` assigned by
`StateManager._group_tenants_by_gpu` when a tenant has no gpu yet. -/
def mock_gpu_uuid (pid : Int) : List Char :=
  ['G', 'P', 'U', '-'] ++ format08d (Int.emod pid 2).toNat ++
    ['-', 'm', 'o', 'c', 'k', '-', 'u', 'u', 'i', 'd']

/-- Append `p` to the group keyed `g`, creating the group at the end if new
(insertion-ordered dictionary of lists). -/
def add_to_group : List (List Char × List Int) → List Char → Int → List (List Char × List Int)
  | [], g, p => [(g, [p])]
  | (h, ps) :: rest, g, p =>
      if h = g then (h, ps ++ [p]) :: rest else (h, ps) :: add_to_group rest g p

/-- The loop body of `StateManager._group_tenants_by_gpu` for one tenant:
assign the mock uuid if the tenant has none (a mutation of the tenant
record) and add the pid to its uuid group. -/
def group_step (acc : List (List Char × List Int) × List (Int × TenantState))
    (pt : Int × TenantState) : List (List Char × List Int) × List (Int × TenantState) :=
  let uuid := pt.2.gpu_uuid.getD (mock_gpu_uuid pt.1)
  (add_to_group acc.1 uuid pt.1, acc.2 ++ [(pt.1, { pt.2 with gpu_uuid := some uuid })])

/-- `StateManager._group_tenants_by_gpu`: iterate the tenant dictionary in
order, assigning uuids and grouping the pids by uuid. -/
def group_tenants_by_gpu (m : StateManager) :
    List (List Char × List Int) × StateManager :=
  let r := m.tenant_states.foldl group_step ([], [])
  (r.1, { m with tenant_states := r.2 })

/-- The loop body of the first scan of `StateManager._detect_gpu_violations`
(lines 228-235) for one pid of the group. -/
def scan_step (m : StateManager) (acc : List Int × List Int) (p : Int) :
    List Int × List Int :=
  let t := (dict_get m.tenant_states p).getD (default_tenant p)
  if t.state = ViolationState.VIOLATED ∧ is_in_cooldown t = false then
    (acc.1 ++ [p], acc.2)
  else if ¬ t.state = ViolationState.VIOLATED then
    (acc.1, acc.2 ++ [p])
  else acc

/-- The first scan of `StateManager._detect_gpu_violations`: partition the
group into violated tenants and potential bullies. -/
def scan_gpu_tenants (m : StateManager) (tenant_pids : List Int) : List Int × List Int :=
  tenant_pids.foldl (scan_step m) ([], [])

/-- The per-victim body of `StateManager._detect_gpu_violations`
(lines 238-261): emit one violation (severity from the mean of the latest
at most three samples) and move the victim into cooldown immediately after
emission.  Configuration is read from the threaded manager (`self`). -/
def detect_victim_step (gpu_uuid : List Char) (bullies : List Int) (now : ℚ)
    (acc : List Violation × StateManager) (vp : Int) : List Violation × StateManager :=
  let t := (dict_get acc.2.tenant_states vp).getD (default_tenant vp)
  let recent := get_recent_latencies t 3
  if recent = [] then acc
  else
    let avg := recent.sum / (recent.length : ℚ)
    let sev := (avg - acc.2.tail_threshold_ms) / acc.2.tail_threshold_ms
    let v : Violation :=
      { victim_pid := vp, victim_gpu := gpu_uuid, bully_pids := bullies
        violation_severity := sev, timestamp := now }
    let t2 := { t with state := ViolationState.COOLDOWN
                       cooldown_remaining := acc.2.cooldown_observations
                       last_action_time := now }
    (acc.1 ++ [v], { acc.2 with tenant_states := dict_set acc.2.tenant_states vp t2 })

/-- `StateManager._detect_gpu_violations`: scan the group once for violated
tenants and potential bullies, then process each victim in order. -/
def detect_gpu_violations (m : StateManager) (gpu_uuid : List Char)
    (tenant_pids : List Int) (now : ℚ) : List Violation × StateManager :=
  let scan := scan_gpu_tenants m tenant_pids
  scan.1.foldl (detect_victim_step gpu_uuid scan.2 now) ([], m)

/-- One iteration of the per-gpu loop of `StateManager._detect_violations`. -/
def detect_group_step (now : ℚ) (acc : List Violation × StateManager)
    (grp : List Char × List Int) : List Violation × StateManager :=
  let r := detect_gpu_violations acc.2 grp.1 grp.2 now
  (acc.1 ++ r.1, r.2)

/-- `StateManager._detect_violations`: group by gpu, then detect per group,
threading the manager state. -/
def detect_violations (m : StateManager) (now : ℚ) : List Violation × StateManager :=
  let gm := group_tenants_by_gpu m
  gm.1.foldl (detect_group_step now) ([], gm.2)

/-- One iteration of the snapshot loop of `StateManager.update`. -/
def apply_metric_step (now : ℚ) (acc : StateManager) (pl : Int × ℚ) : StateManager :=
  update_tenant_state acc pl.1 pl.2 now

/-- `StateManager.update` (the spec's `StateTracker.advance`): apply the
snapshot, process cooldowns, garbage-collect stale tenants, detect
violations. -/
def update (m : StateManager) (latest_metrics : List (Int × ℚ)) (now : ℚ) :
    List Violation × StateManager :=
  let m1 := latest_metrics.foldl (apply_metric_step now) m
  let m2 := process_cooldowns m1
  let m3 := cleanup_stale_tenants m2 (latest_metrics.map Prod.fst)
  detect_violations m3 now

/-- `StateManager.force_cooldown`: `duration or self.cooldown_observations`
treats both `None` and `0` as "use the configured value". -/
def force_cooldown (m : StateManager) (pid : Int) (duration : Option Int) (now : ℚ) :
    Bool × StateManager :=
  match dict_get m.tenant_states pid with
  | none => (false, m)
  | some t =>
      let d := match duration with
        | none => m.cooldown_observations
        | some x => if x = 0 then m.cooldown_observations else x
      let t2 := { t with state := ViolationState.COOLDOWN, cooldown_remaining := d
                         last_action_time := now }
      (true, { m with tenant_states := dict_set m.tenant_states pid t2 })

/-!
`metrics.py` embedding.  The metric file of a tenant is represented at the
level the code's parser distinguishes: `none` — the file does not exist;
`some none` — the file exists but its content matches neither the
`p99_latency_ms: <number>` pattern nor a bare numeral; `some (some q)` —
the file exists and its numeral denotes the rational `q`.  `random.uniform`
in the missing-file branch is an explicit `variation` argument.
-/

/-- `MetricsMonitor._read_tenant_metric` (lines 207-249): a parsed value is
returned as is; invalid content yields `None`; a missing file yields the
synthesized mock latency `max(10.0, 50.0 + pid % 100 + variation)` with no
test-mode gate of any kind. -/
def read_tenant_metric (pid : Int) (file : Option (Option ℚ)) (variation : ℚ) :
    Option ℚ :=
  match file with
  | some (some q) => some q
  | some none => none
  | none => some (max 10 (50 + ((Int.emod pid 100 : Int) : ℚ) + variation))

/-- Python `f"{x:.2f}"` at the level of the denoted rational: the value
rounded to the nearest hundredth (the claims never hit a tie, so the tie
rule is irrelevant; half-up is used). -/
def round2 (q : ℚ) : ℚ := ((Int.floor (q * 100 + 1 / 2) : Int) : ℚ) / 100

/-- `MetricsMonitor.write_tenant_metric` (lines 251-270): writes
`f"p99_latency_ms: {latency_ms:.2f}\n"`, i.e. the stored numeral denotes
the latency rounded to two decimal places, and the regex of
`_read_tenant_metric` parses that numeral back exactly. -/
def write_tenant_metric (latency_ms : ℚ) : Option (Option ℚ) :=
  some (some (round2 latency_ms))

/-!
`topology.py` embedding (the parts the claims need).
-/

/-- `topology.py` `GPUInfo`. -/
structure GPUInfo : Type where
  uuid : List Char
  pci_address : List Char
  numa_node : Int
  pcie_path : List (List Char)
deriving DecidableEq, Repr

/-- `TopologyManager._get_common_pcie_path_length`: length of the common
path from the root, stopping at the first mismatch. -/
def get_common_pcie_path_length : List (List Char) → List (List Char) → Nat
  | a :: as, b :: bs => if a = b then 1 + get_common_pcie_path_length as bs else 0
  | _, _ => 0

/-- `TopologyManager.get_affinity_score` (lines 260-298); `⊤` models the
`float('inf')` returned for unknown uuids. -/
def get_affinity_score (gpu_info : List (List Char × GPUInfo))
    (gpu1_uuid gpu2_uuid : List Char) (numa_weight pcie_weight : ℚ) : WithTop ℚ :=
  match dict_get gpu_info gpu1_uuid, dict_get gpu_info gpu2_uuid with
  | some gpu1, some gpu2 =>
      let numa_penalty : ℚ := if gpu1.numa_node ≠ gpu2.numa_node then numa_weight else 0
      let common := get_common_pcie_path_length gpu1.pcie_path gpu2.pcie_path
      let mx := max gpu1.pcie_path.length gpu2.pcie_path.length
      let pcie_penalty : ℚ :=
        if 0 < mx then pcie_weight * (1 - (common : ℚ) / (mx : ℚ)) else 0
      ((numa_penalty + pcie_penalty : ℚ) : WithTop ℚ)
  | _, _ => ⊤

/-!
`actions.py` embedding (the part claim C9 needs).  A file's text is a
`List Char`; Python's `split('\n')` and whitespace `split()` are modelled
by structurally recursive char-list functions.
-/

/-- Python `s.split(sep)` for a single separator character: splits keeping
empty pieces. -/
def split_on_char (sep : Char) : List Char → List (List Char)
  | [] => [[]]
  | c :: cs =>
      let r := split_on_char sep cs
      if c = sep then [] :: r
      else match r with
        | t :: rest => (c :: t) :: rest
        | [] => [[c]]

/-- Python `s.split()` (no argument): split on whitespace runs, dropping
empty pieces. -/
def py_split_ws (cs : List Char) : List (List Char) :=
  ((cs.foldr (fun c acc =>
      if c.isWhitespace then [] :: acc
      else match acc with
        | t :: rest => (c :: t) :: rest
        | [] => [[c]]) [[]])).filter (fun t => t ≠ [])

/-- The body of the device loop in `ActionExecutor._get_block_devices`
(lines 245-258): skip blank lines, tokenize, and keep `f"{major}:{minor}"`
for rows with at least four fields whose device name starts with `sd`,
`nvme` or `hd` and whose final two characters contain no digit. -/
def block_device_row (line : List Char) : Option (List Char) :=
  if line.all Char.isWhitespace then none
  else
    let parts := py_split_ws line
    if 4 ≤ parts.length then
      let major := parts.getD 0 []
      let minor := parts.getD 1 []
      let device_name := parts.getD 3 []
      if (device_name.take 2 = ['s', 'd'] ∨ device_name.take 4 = ['n', 'v', 'm', 'e'] ∨
            device_name.take 2 = ['h', 'd']) ∧
          (device_name.reverse.take 2).all (fun c => c.isDigit = false) then
        some (major ++ [':'] ++ minor)
      else none
    else none

/-- `ActionExecutor._get_block_devices` (lines 235-268) on the text of
`/proc/partitions`: drop the two header lines, collect the kept rows, and
fall back to `["8:0", "259:0"]` when none were kept. -/
def get_block_devices (content : List Char) : List (List Char) :=
  let devices := ((split_on_char '\n' content).drop 2).foldl
    (fun acc line =>
      match block_device_row line with
      | some d => acc ++ [d]
      | none => acc) []
  if devices = [] then [['8', ':', '0'], ['2', '5', '9', ':', '0']] else devices

/-- The rows the filtering step of `_get_block_devices` keeps, as the claim
describes them, without the empty-case default. -/
def kept_block_rows (content : List Char) : List (List Char) :=
  ((split_on_char '\n' content).drop 2).filterMap block_device_row

/-!
Helper lemmas.
-/

theorem dict_get_dict_set {α β : Type} [DecidableEq α] (l : List (α × β)) (k : α) (v : β)
    (p : α) : dict_get (dict_set l k v) p = if k = p then some v else dict_get l p := by
  induction l with
  | nil => simp [dict_get, dict_set]
  | cons hd tl ih =>
      obtain ⟨q, u⟩ := hd
      by_cases h1 : q = k
      · subst h1
        by_cases h2 : q = p
        · subst h2
          simp [dict_get, dict_set]
        · simp [dict_get, dict_set, h2]
      · by_cases h2 : q = p
        · subst h2
          have hkp : ¬ k = q := fun h => h1 h.symm
          simp [dict_get, dict_set, h1, hkp]
        · simp [dict_get, dict_set, h1, h2, ih]

theorem get_common_pcie_path_length_self (path : List (List Char)) :
    get_common_pcie_path_length path path = path.length := by
  induction path with
  | nil => rfl
  | cons a as ih => simp [get_common_pcie_path_length, ih, Nat.add_comm]

theorem foldl_collect_filterMap (l : List (List Char)) (acc : List (List Char)) :
    l.foldl (fun a x =>
        match block_device_row x with | some b => a ++ [b] | none => a) acc
      = acc ++ l.filterMap block_device_row := by
  induction l generalizing acc with
  | nil => simp
  | cons x xs ih => cases hfx : block_device_row x <;>
      simp [List.filterMap_cons, hfx, ih]

theorem mul_length_le_sum_of_forall_lt (th : ℚ) (l : List ℚ) (h : ∀ x ∈ l, th < x) :
    th * l.length ≤ l.sum := by
  induction l with
  | nil => simp
  | cons x xs ih =>
      have hx : th < x := h x (by simp)
      have hxs : th * xs.length ≤ xs.sum := ih (fun y hy => h y (by simp [hy]))
      simp only [List.sum_cons, List.length_cons]
      push_cast
      nlinarith

/-!
Claim theorems.
-/

/-- C1: the FSM transition applied per observation follows the table with a
strict breach test: latency exactly at the threshold is not a breach; on a
breach NORMAL moves to DEGRADED with count 1; in DEGRADED a breach
increments the count and promotes to VIOLATED exactly when the new count
reaches `persistence_windows`; a non-breach returns DEGRADED and VIOLATED
to NORMAL with count 0. -/
theorem c1_fsm_transition_table (threshold latency_ms : ℚ) (persistence : Int)
    (t : TenantState) :
    (t.state = ViolationState.NORMAL → threshold < latency_ms →
      update_tenant_fsm threshold persistence t latency_ms
        = { t with state := ViolationState.DEGRADED, violation_count := 1 })
    ∧ (t.state = ViolationState.DEGRADED → threshold < latency_ms →
        persistence ≤ t.violation_count + 1 →
        update_tenant_fsm threshold persistence t latency_ms
          = { t with state := ViolationState.VIOLATED
                     violation_count := t.violation_count + 1 })
    ∧ (t.state = ViolationState.DEGRADED → threshold < latency_ms →
        ¬ persistence ≤ t.violation_count + 1 →
        update_tenant_fsm threshold persistence t latency_ms
          = { t with violation_count := t.violation_count + 1 })
    ∧ ((t.state = ViolationState.DEGRADED ∨ t.state = ViolationState.VIOLATED) →
        ¬ threshold < latency_ms →
        update_tenant_fsm threshold persistence t latency_ms
          = { t with state := ViolationState.NORMAL, violation_count := 0 })
    ∧ (update_tenant_fsm threshold persistence t threshold
        = if t.state = ViolationState.DEGRADED ∨ t.state = ViolationState.VIOLATED
          then { t with state := ViolationState.NORMAL, violation_count := 0 }
          else t) := by
  refine ⟨?_, ?_, ?_, ?_, ?_⟩
  · intro hs hb
    simp [update_tenant_fsm, hs, if_pos hb]
  · intro hs hb hp
    simp [update_tenant_fsm, hs, if_pos hb, if_pos hp]
  · intro hs hb hp
    simp [update_tenant_fsm, hs, if_pos hb, if_neg hp]
  · intro hs hb
    rcases hs with hs | hs <;> simp [update_tenant_fsm, hs, if_neg hb]
  · have hb : ¬ threshold < threshold := lt_irrefl threshold
    cases hs : t.state <;> simp [update_tenant_fsm, hs, if_neg hb]

/-- Witness for C1 at a concrete transition: a NORMAL tenant breaching a
threshold of 100 with latency 150 moves to DEGRADED with count 1. -/
theorem c1_fsm_transition_table_witness :
    update_tenant_fsm 100 2 (default_tenant 1) 150
      = { default_tenant 1 with state := ViolationState.DEGRADED, violation_count := 1 } :=
  (c1_fsm_transition_table 100 150 2 (default_tenant 1)).1 rfl (by norm_num)

/-- C6 (code bug): with the metric file of pid 5 missing, the reader
synthesizes `max(10, 50 + 5 % 100 + variation)` — here `55` — instead of
omitting the tenant, while invalid content is indeed omitted.  The source
has no test-mode gate around the synthesis branch. -/
theorem c6_missing_file_synthesizes :
    read_tenant_metric 5 none 0 = some 55
    ∧ read_tenant_metric 5 none 0 ≠ none
    ∧ read_tenant_metric 5 (some none) 0 = none := by
  refine ⟨?_, ?_, rfl⟩
  · norm_num [read_tenant_metric]
  · simp [read_tenant_metric]

/-- C7 counterexample: writing latency `0.001` stores the two-decimal
rendering `0.00`, so the snapshot read-back is `0`, not `0.001`: the
write/read round trip is not the identity. -/
theorem c7_round_trip_counterexample :
    read_tenant_metric 7 (write_tenant_metric (1 / 1000)) 0 = some 0
    ∧ read_tenant_metric 7 (write_tenant_metric (1 / 1000)) 0 ≠ some (1 / 1000) := by
  have h : round2 (1 / 1000) = 0 := by
    have h35 : ((1 : ℚ) / 1000) * 100 + 1 / 2 = 3 / 5 := by norm_num
    rw [round2, h35]
    norm_num [Int.floor_eq_iff]
  have e : read_tenant_metric 7 (write_tenant_metric (1 / 1000)) 0
      = some (round2 (1 / 1000)) := rfl
  rw [e, h]
  refine ⟨rfl, ?_⟩
  intro hc
  rw [Option.some_inj] at hc
  norm_num at hc

/-- C7 amended: the round trip through `write_tenant_metric` (which formats
with two decimal places) is the identity exactly on latencies that are
whole multiples of a hundredth; in general it returns the latency rounded
to two decimals. -/
theorem c7_round_trip_two_decimals (pid : Int) (latency_ms variation : ℚ)
    (hL : 0 ≤ latency_ms) (h2 : (latency_ms * 100).den = 1) :
    read_tenant_metric pid (write_tenant_metric latency_ms) variation = some latency_ms := by
  have hn : ((latency_ms * 100).num : ℚ) = latency_ms * 100 :=
    Rat.coe_int_num_of_den_eq_one h2
  have hfloor : Int.floor (latency_ms * 100 + 1 / 2) = (latency_ms * 100).num := by
    rw [← hn, Int.floor_eq_iff] <;> norm_num
  have hr : round2 latency_ms = latency_ms := by
    rw [round2, hfloor, hn]
    ring
  simp [read_tenant_metric, write_tenant_metric, hr]

/-- Witness for C7's amended round trip at latency `12.5`. -/
theorem c7_round_trip_two_decimals_witness :
    0 ≤ (25 / 2 : ℚ) ∧ ((25 / 2 : ℚ) * 100).den = 1
    ∧ read_tenant_metric 3 (write_tenant_metric (25 / 2)) 0 = some (25 / 2) := by
  have h1 : (0 : ℚ) ≤ 25 / 2 := by norm_num
  have h2 : ((25 / 2 : ℚ) * 100).den = 1 := by
    have : (25 / 2 : ℚ) * 100 = (1250 : ℚ) := by norm_num
    rw [this]
    exact Rat.den_ofNat 1250
  exact ⟨h1, h2, c7_round_trip_two_decimals 3 (25 / 2) 0 h1 h2⟩

/-- C8: a known device has affinity penalty exactly 0 with itself, for any
non-negative weights, including when its bus path is empty. -/
theorem c8_self_affinity_zero (gpu_info : List (List Char × GPUInfo)) (x : List Char)
    (info : GPUInfo) (numa_weight pcie_weight : ℚ)
    (h : dict_get gpu_info x = some info)
    (hn : 0 ≤ numa_weight) (hp : 0 ≤ pcie_weight) :
    get_affinity_score gpu_info x x numa_weight pcie_weight = ((0 : ℚ) : WithTop ℚ) := by
  unfold get_affinity_score
  rw [h]
  rcases Nat.eq_zero_or_pos info.pcie_path.length with hz | hpos
  · simp [get_common_pcie_path_length_self, hz]
  · have hne : ((info.pcie_path.length : ℚ)) ≠ 0 := by positivity
    simp [get_common_pcie_path_length_self, hpos, div_self hne]

/-- Witness for C8 on a concrete one-device topology with a two-hop path. -/
theorem c8_self_affinity_zero_witness :
    get_affinity_score
      [(['a'], { uuid := ['a'], pci_address := ['p'], numa_node := 0
                 pcie_path := [['p'], ['q']] })]
      ['a'] ['a'] 2 (3 / 2) = ((0 : ℚ) : WithTop ℚ) :=
  c8_self_affinity_zero _ ['a'] _ 2 (3 / 2) rfl (by norm_num) (by norm_num)

/-- C9 counterexample: on a partitions listing whose only data row is the
partition `sda1`, the filter keeps nothing and the function returns the
two-device default `["8:0", "259:0"]`, not `["8:0"]` as claimed. -/
theorem c9_block_devices_counterexample :
    get_block_devices
        ("major minor  #blocks  name\n\n   8        1     524288 sda1").toList
      = [['8', ':', '0'], ['2', '5', '9', ':', '0']]
    ∧ get_block_devices
        ("major minor  #blocks  name\n\n   8        1     524288 sda1").toList
      ≠ [['8', ':', '0']] := by
  constructor
  · decide
  · decide

/-- C9 amended: the whole-disk filter is as the claim states it, but when
the filter keeps no rows the default is the two-element list
`["8:0", "259:0"]` (the `["8:0"]` singleton occurs only on the exception
path, not on an empty filter result). -/
theorem c9_block_devices_default (content : List Char) :
    get_block_devices content
      = if kept_block_rows content = []
        then [['8', ':', '0'], ['2', '5', '9', ':', '0']]
        else kept_block_rows content := by
  simp only [get_block_devices, kept_block_rows]
  rw [foldl_collect_filterMap]
  simp

/-- C10: `force_cooldown` with an explicit duration of 0 behaves exactly
like passing no duration — the tenant enters COOLDOWN with the configured
`cooldown_observations` — and on an untracked pid it returns false and
leaves the manager unchanged. -/
theorem c10_force_cooldown_zero_duration (m : StateManager) (pid : Int)
    (t : TenantState) (d : Option Int) (now : ℚ) :
    (dict_get m.tenant_states pid = some t →
      force_cooldown m pid (some 0) now = force_cooldown m pid none now
      ∧ (force_cooldown m pid (some 0) now).1 = true
      ∧ dict_get (force_cooldown m pid (some 0) now).2.tenant_states pid
          = some { t with state := ViolationState.COOLDOWN
                          cooldown_remaining := m.cooldown_observations
                          last_action_time := now })
    ∧ (dict_get m.tenant_states pid = none →
        force_cooldown m pid d now = (false, m)) := by
  constructor
  · intro h
    refine ⟨?_, ?_, ?_⟩
    · simp [force_cooldown, h]
    · simp [force_cooldown, h]
    · simp [force_cooldown, h, dict_get_dict_set]
  · intro h
    simp [force_cooldown, h]

/-- Witness for C10 on a one-tenant manager: duration 0 gives the
configured cooldown of 10, and the untracked pid 2 is rejected. -/
theorem c10_force_cooldown_zero_duration_witness :
    (force_cooldown
        { mk_state_manager 100 3 10 with tenant_states := [(1, default_tenant 1)] }
        1 (some 0) 5
      = force_cooldown
          { mk_state_manager 100 3 10 with tenant_states := [(1, default_tenant 1)] }
          1 none 5)
    ∧ (force_cooldown
        { mk_state_manager 100 3 10 with tenant_states := [(1, default_tenant 1)] }
        2 (some 7) 5
      = (false,
          { mk_state_manager 100 3 10 with tenant_states := [(1, default_tenant 1)] })) :=
  ⟨((c10_force_cooldown_zero_duration
      { mk_state_manager 100 3 10 with tenant_states := [(1, default_tenant 1)] }
      1 (default_tenant 1) none 5).1 rfl).1,
   (c10_force_cooldown_zero_duration
      { mk_state_manager 100 3 10 with tenant_states := [(1, default_tenant 1)] }
      2 (default_tenant 2) (some 7) 5).2 rfl⟩

/-!
Concrete executions of `update` used by claims C2-C5.  Each `c*_state_*`
definition spells out the full manager state after a tick so that later
ticks can be evaluated from it directly.
-/

def c2_tenant_tick1 : TenantState :=
  { pid := 9, gpu_uuid := some (mock_gpu_uuid 9), state := ViolationState.DEGRADED
    latency_history := [(1, 150)], violation_count := 1, last_action_time := 0
    cooldown_remaining := 0 }

def c2_state_tick1 : StateManager :=
  { tail_threshold_ms := 100, persistence_windows := 1, cooldown_observations := 3
    tenant_states := [(9, c2_tenant_tick1)] }

def c2_tenant_tick2 : TenantState :=
  { pid := 9, gpu_uuid := some (mock_gpu_uuid 9), state := ViolationState.COOLDOWN
    latency_history := [(1, 150), (2, 150)], violation_count := 2, last_action_time := 2
    cooldown_remaining := 3 }

def c2_state_tick2 : StateManager :=
  { tail_threshold_ms := 100, persistence_windows := 1, cooldown_observations := 3
    tenant_states := [(9, c2_tenant_tick2)] }

def c2_violation_tick2 : Violation :=
  { victim_pid := 9, victim_gpu := mock_gpu_uuid 9, bully_pids := []
    violation_severity := 1 / 2, timestamp := 2 }

set_option maxHeartbeats 1000000 in
/-- C2 (code bug): with config threshold 100, persistence 1, cooldown 3,
the snapshot `{9: 150}` emits NO violation (the tenant only reaches
DEGRADED, because the promotion check lives solely in the DEGRADED branch);
once a second breach tick does emit the violation and parks 9 in COOLDOWN
with 3 ticks remaining, a single `advance({})` garbage-collects the
mid-cooldown record, so after the empty ticks there is no record for 9 at
all — its state is not NORMAL, contradicting the claim and the repository's
own `test_cooldown_processing`. -/
theorem c2_cooldown_scenario_code_bug :
    (update (mk_state_manager 100 1 3) [(9, 150)] 1).1 = []
    ∧ (dict_get (update (mk_state_manager 100 1 3) [(9, 150)] 1).2.tenant_states 9).map
        (fun t => (t.state, t.violation_count)) = some (ViolationState.DEGRADED, 1)
    ∧ (update (update (mk_state_manager 100 1 3) [(9, 150)] 1).2 [(9, 150)] 2).1.map
        (fun v => v.victim_pid) = [9]
    ∧ (dict_get (update (update (mk_state_manager 100 1 3) [(9, 150)] 1).2
          [(9, 150)] 2).2.tenant_states 9).map
        (fun t => (t.state, t.cooldown_remaining)) = some (ViolationState.COOLDOWN, 3)
    ∧ dict_get (update (update (update (mk_state_manager 100 1 3) [(9, 150)] 1).2
          [(9, 150)] 2).2 [] 3).2.tenant_states 9 = none := by
  have h1 : update (mk_state_manager 100 1 3) [(9, 150)] 1 = ([], c2_state_tick1) := by
    norm_num [update, update_tenant_state, process_cooldowns, cleanup_stale_tenants,
      detect_violations, group_tenants_by_gpu, detect_gpu_violations, scan_gpu_tenants,
      group_step, scan_step, detect_group_step, apply_metric_step,
      detect_victim_step, dict_get, dict_set, default_tenant, add_latency_measurement,
      update_tenant_fsm, get_recent_latencies, is_in_cooldown, decrement_cooldown,
      mk_state_manager, add_to_group, c2_state_tick1, c2_tenant_tick1]
    try simp
    try norm_num
  have h2 : update c2_state_tick1 [(9, 150)] 2 = ([c2_violation_tick2], c2_state_tick2) := by
    norm_num [update, update_tenant_state, process_cooldowns, cleanup_stale_tenants,
      detect_violations, group_tenants_by_gpu, detect_gpu_violations, scan_gpu_tenants,
      group_step, scan_step, detect_group_step, apply_metric_step,
      detect_victim_step, dict_get, dict_set, default_tenant, add_latency_measurement,
      update_tenant_fsm, get_recent_latencies, is_in_cooldown, decrement_cooldown,
      add_to_group, c2_state_tick1, c2_tenant_tick1, c2_state_tick2, c2_tenant_tick2,
      c2_violation_tick2]
    try simp
    try norm_num
  have h3 : update c2_state_tick2 [] 3
      = ([], { tail_threshold_ms := 100, persistence_windows := 1, cooldown_observations := 3
               tenant_states := [] }) := by
    norm_num [update, update_tenant_state, process_cooldowns, cleanup_stale_tenants,
      detect_violations, group_tenants_by_gpu, detect_gpu_violations, scan_gpu_tenants,
      group_step, scan_step, detect_group_step, apply_metric_step,
      detect_victim_step, dict_get, dict_set, default_tenant, add_latency_measurement,
      update_tenant_fsm, get_recent_latencies, is_in_cooldown, decrement_cooldown,
      add_to_group, c2_state_tick2, c2_tenant_tick2]
    try simp
    try norm_num
  rw [h1]
  rw [show (([], c2_state_tick1) : List Violation × StateManager).2 = c2_state_tick1 from rfl, h2]
  rw [show (([c2_violation_tick2], c2_state_tick2) : List Violation × StateManager).2
        = c2_state_tick2 from rfl, h3]
  refine ⟨rfl, ?_, ?_, ?_, ?_⟩ <;>
    simp [dict_get, c2_state_tick1, c2_tenant_tick1, c2_state_tick2, c2_tenant_tick2,
      c2_violation_tick2]

def c3_tenant_tick1 (p : Int) : TenantState :=
  { pid := p, gpu_uuid := some (mock_gpu_uuid p), state := ViolationState.DEGRADED
    latency_history := [(1, 150)], violation_count := 1, last_action_time := 0
    cooldown_remaining := 0 }

def c3_state_tick1 : StateManager :=
  { tail_threshold_ms := 100, persistence_windows := 2, cooldown_observations := 10
    tenant_states := [(2, c3_tenant_tick1 2), (4, c3_tenant_tick1 4)] }

def c3_tenant_tick2 (p : Int) : TenantState :=
  { pid := p, gpu_uuid := some (mock_gpu_uuid p), state := ViolationState.COOLDOWN
    latency_history := [(1, 150), (2, 150)], violation_count := 2, last_action_time := 2
    cooldown_remaining := 10 }

def c3_state_tick2 : StateManager :=
  { tail_threshold_ms := 100, persistence_windows := 2, cooldown_observations := 10
    tenant_states := [(2, c3_tenant_tick2 2), (4, c3_tenant_tick2 4)] }

def c3_violation (p : Int) : Violation :=
  { victim_pid := p, victim_gpu := mock_gpu_uuid 2, bully_pids := []
    violation_severity := 1 / 2, timestamp := 2 }

set_option maxHeartbeats 1000000 in
/-- C3 counterexample: tenants 2 and 4 share a device group and both become
VIOLATED in the same tick.  Victim 2 is emitted first and moved to COOLDOWN
(its final state below), so at the moment victim 4's violation is emitted,
tenant 2's state is COOLDOWN, not VIOLATED — yet victim 4's bully list is
`[]`, not `[2]`: the bully list reflects the scan taken before any victim
was processed, not the states at emission time. -/
theorem c3_bully_list_counterexample :
    (update (update (mk_state_manager 100 2 10) [(2, 150), (4, 150)] 1).2
        [(2, 150), (4, 150)] 2).1.map (fun v => (v.victim_pid, v.bully_pids))
      = [(2, []), (4, [])]
    ∧ (dict_get (update (update (mk_state_manager 100 2 10) [(2, 150), (4, 150)] 1).2
          [(2, 150), (4, 150)] 2).2.tenant_states 2).map (fun t => t.state)
        = some ViolationState.COOLDOWN := by
  have h1 : update (mk_state_manager 100 2 10) [(2, 150), (4, 150)] 1
      = ([], c3_state_tick1) := by
    norm_num [update, update_tenant_state, process_cooldowns, cleanup_stale_tenants,
      detect_violations, group_tenants_by_gpu, detect_gpu_violations, scan_gpu_tenants,
      group_step, scan_step, detect_group_step, apply_metric_step,
      detect_victim_step, dict_get, dict_set, default_tenant, add_latency_measurement,
      update_tenant_fsm, get_recent_latencies, is_in_cooldown, decrement_cooldown,
      mk_state_manager, add_to_group, c3_state_tick1, c3_tenant_tick1,
      mock_gpu_uuid, format08d, nat_digits]
    try simp
    try norm_num
  have h2 : update c3_state_tick1 [(2, 150), (4, 150)] 2
      = ([c3_violation 2, c3_violation 4], c3_state_tick2) := by
    norm_num [update, update_tenant_state, process_cooldowns, cleanup_stale_tenants,
      detect_violations, group_tenants_by_gpu, detect_gpu_violations, scan_gpu_tenants,
      group_step, scan_step, detect_group_step, apply_metric_step,
      detect_victim_step, dict_get, dict_set, default_tenant, add_latency_measurement,
      update_tenant_fsm, get_recent_latencies, is_in_cooldown, decrement_cooldown,
      add_to_group, c3_state_tick1, c3_tenant_tick1, c3_state_tick2, c3_tenant_tick2,
      c3_violation, mock_gpu_uuid, format08d, nat_digits]
    try simp
    try norm_num
  rw [h1]
  rw [show (([], c3_state_tick1) : List Violation × StateManager).2 = c3_state_tick1 from rfl, h2]
  constructor
  · simp [c3_violation]
  · simp [dict_get, c3_state_tick2, c3_tenant_tick2]

def c4_tenant_tick1 : TenantState :=
  { pid := 1, gpu_uuid := some (mock_gpu_uuid 1), state := ViolationState.NORMAL
    latency_history := [(1, 0)], violation_count := 0, last_action_time := 0
    cooldown_remaining := 0 }

def c4_state_tick1 : StateManager :=
  { tail_threshold_ms := 100, persistence_windows := 2, cooldown_observations := 5
    tenant_states := [(1, c4_tenant_tick1)] }

def c4_tenant_tick2 : TenantState :=
  { pid := 1, gpu_uuid := some (mock_gpu_uuid 1), state := ViolationState.DEGRADED
    latency_history := [(1, 0), (2, 101)], violation_count := 1, last_action_time := 0
    cooldown_remaining := 0 }

def c4_state_tick2 : StateManager :=
  { tail_threshold_ms := 100, persistence_windows := 2, cooldown_observations := 5
    tenant_states := [(1, c4_tenant_tick2)] }

def c4_tenant_tick3 : TenantState :=
  { pid := 1, gpu_uuid := some (mock_gpu_uuid 1), state := ViolationState.COOLDOWN
    latency_history := [(1, 0), (2, 101), (3, 101)], violation_count := 2
    last_action_time := 3, cooldown_remaining := 5 }

def c4_state_tick3 : StateManager :=
  { tail_threshold_ms := 100, persistence_windows := 2, cooldown_observations := 5
    tenant_states := [(1, c4_tenant_tick3)] }

def c4_violation : Violation :=
  { victim_pid := 1, victim_gpu := mock_gpu_uuid 1, bully_pids := []
    violation_severity := -49 / 150, timestamp := 3 }

set_option maxHeartbeats 1000000 in
/-- C4 counterexample: with threshold 100 and persistence 2, the snapshots
`{1:0}`, `{1:101}`, `{1:101}` promote tenant 1 to VIOLATED on the third
tick; its latest three samples are `[0, 101, 101]` with mean `202/3 < 100`,
so the emitted violation's severity is `-49/150 < 0`. -/
theorem c4_negative_severity_counterexample :
    (update (update (update (mk_state_manager 100 2 5) [(1, 0)] 1).2 [(1, 101)] 2).2
        [(1, 101)] 3).1.map (fun v => (v.victim_pid, v.violation_severity))
      = [(1, -49 / 150)]
    ∧ (-49 / 150 : ℚ) < 0 := by
  have h1 : update (mk_state_manager 100 2 5) [(1, 0)] 1 = ([], c4_state_tick1) := by
    norm_num [update, update_tenant_state, process_cooldowns, cleanup_stale_tenants,
      detect_violations, group_tenants_by_gpu, detect_gpu_violations, scan_gpu_tenants,
      group_step, scan_step, detect_group_step, apply_metric_step,
      detect_victim_step, dict_get, dict_set, default_tenant, add_latency_measurement,
      update_tenant_fsm, get_recent_latencies, is_in_cooldown, decrement_cooldown,
      mk_state_manager, add_to_group, c4_state_tick1, c4_tenant_tick1]
    try simp
    try norm_num
  have h2 : update c4_state_tick1 [(1, 101)] 2 = ([], c4_state_tick2) := by
    norm_num [update, update_tenant_state, process_cooldowns, cleanup_stale_tenants,
      detect_violations, group_tenants_by_gpu, detect_gpu_violations, scan_gpu_tenants,
      group_step, scan_step, detect_group_step, apply_metric_step,
      detect_victim_step, dict_get, dict_set, default_tenant, add_latency_measurement,
      update_tenant_fsm, get_recent_latencies, is_in_cooldown, decrement_cooldown,
      add_to_group, c4_state_tick1, c4_tenant_tick1, c4_state_tick2, c4_tenant_tick2]
    try simp
    try norm_num
  have h3 : update c4_state_tick2 [(1, 101)] 3 = ([c4_violation], c4_state_tick3) := by
    norm_num [update, update_tenant_state, process_cooldowns, cleanup_stale_tenants,
      detect_violations, group_tenants_by_gpu, detect_gpu_violations, scan_gpu_tenants,
      group_step, scan_step, detect_group_step, apply_metric_step,
      detect_victim_step, dict_get, dict_set, default_tenant, add_latency_measurement,
      update_tenant_fsm, get_recent_latencies, is_in_cooldown, decrement_cooldown,
      add_to_group, c4_state_tick2, c4_tenant_tick2, c4_state_tick3, c4_tenant_tick3,
      c4_violation]
    try simp
    try norm_num
  rw [h1]
  rw [show (([], c4_state_tick1) : List Violation × StateManager).2 = c4_state_tick1 from rfl, h2]
  rw [show (([], c4_state_tick2) : List Violation × StateManager).2 = c4_state_tick2 from rfl, h3]
  constructor
  · simp [c4_violation]
  · norm_num

def c5_tenant_tick1 : TenantState :=
  { pid := 1, gpu_uuid := some (mock_gpu_uuid 1), state := ViolationState.DEGRADED
    latency_history := [(1, 150)], violation_count := 1, last_action_time := 0
    cooldown_remaining := 0 }

def c5_state_tick1 : StateManager :=
  { tail_threshold_ms := 100, persistence_windows := 2, cooldown_observations := 5
    tenant_states := [(1, c5_tenant_tick1)] }

def c5_adv_tenant_tick1 : TenantState :=
  { pid := 3, gpu_uuid := some (mock_gpu_uuid 3), state := ViolationState.DEGRADED
    latency_history := [(1, 150)], violation_count := 1, last_action_time := 0
    cooldown_remaining := 0 }

def c5_adv_state_tick1 : StateManager :=
  { tail_threshold_ms := 100, persistence_windows := 2, cooldown_observations := 7
    tenant_states := [(3, c5_adv_tenant_tick1)] }

def c5_adv_tenant_tick2 : TenantState :=
  { pid := 3, gpu_uuid := some (mock_gpu_uuid 3), state := ViolationState.COOLDOWN
    latency_history := [(1, 150), (2, 150)], violation_count := 2, last_action_time := 2
    cooldown_remaining := 7 }

def c5_adv_state_tick2 : StateManager :=
  { tail_threshold_ms := 100, persistence_windows := 2, cooldown_observations := 7
    tenant_states := [(3, c5_adv_tenant_tick2)] }

def c5_adv_violation : Violation :=
  { victim_pid := 3, victim_gpu := mock_gpu_uuid 3, bully_pids := []
    violation_severity := 1 / 2, timestamp := 2 }

set_option maxHeartbeats 1000000 in
/-- C5 counterexample: entering COOLDOWN never resets `violation_count`.
A DEGRADED tenant (count 1) forced into cooldown keeps count 1 while in
state COOLDOWN, and a tenant promoted and emitted by `update` itself ends
the tick in COOLDOWN with count 2 — in both cases `count > 0` with a state
outside {DEGRADED, VIOLATED}, refuting the claimed invariant. -/
theorem c5_count_invariant_counterexample :
    (dict_get (force_cooldown (update (mk_state_manager 100 2 5) [(1, 150)] 1).2
        1 none 2).2.tenant_states 1).map (fun t => (t.state, t.violation_count))
      = some (ViolationState.COOLDOWN, 1)
    ∧ (dict_get (update (update (mk_state_manager 100 2 7) [(3, 150)] 1).2
          [(3, 150)] 2).2.tenant_states 3).map (fun t => (t.state, t.violation_count))
        = some (ViolationState.COOLDOWN, 2) := by
  constructor
  · have h1 : update (mk_state_manager 100 2 5) [(1, 150)] 1 = ([], c5_state_tick1) := by
      norm_num [update, update_tenant_state, process_cooldowns, cleanup_stale_tenants,
        detect_violations, group_tenants_by_gpu, detect_gpu_violations, scan_gpu_tenants,
      group_step, scan_step, detect_group_step, apply_metric_step,
        detect_victim_step, dict_get, dict_set, default_tenant, add_latency_measurement,
        update_tenant_fsm, get_recent_latencies, is_in_cooldown, decrement_cooldown,
        mk_state_manager, add_to_group, c5_state_tick1, c5_tenant_tick1]
      try simp
      try norm_num
    rw [h1]
    rw [show (([], c5_state_tick1) : List Violation × StateManager).2 = c5_state_tick1 from rfl]
    simp [force_cooldown, dict_get, dict_set, c5_state_tick1, c5_tenant_tick1]
  · have h1 : update (mk_state_manager 100 2 7) [(3, 150)] 1 = ([], c5_adv_state_tick1) := by
      norm_num [update, update_tenant_state, process_cooldowns, cleanup_stale_tenants,
        detect_violations, group_tenants_by_gpu, detect_gpu_violations, scan_gpu_tenants,
      group_step, scan_step, detect_group_step, apply_metric_step,
        detect_victim_step, dict_get, dict_set, default_tenant, add_latency_measurement,
        update_tenant_fsm, get_recent_latencies, is_in_cooldown, decrement_cooldown,
        mk_state_manager, add_to_group, c5_adv_state_tick1, c5_adv_tenant_tick1]
      try simp
      try norm_num
    have h2 : update c5_adv_state_tick1 [(3, 150)] 2
        = ([c5_adv_violation], c5_adv_state_tick2) := by
      norm_num [update, update_tenant_state, process_cooldowns, cleanup_stale_tenants,
        detect_violations, group_tenants_by_gpu, detect_gpu_violations, scan_gpu_tenants,
      group_step, scan_step, detect_group_step, apply_metric_step,
        detect_victim_step, dict_get, dict_set, default_tenant, add_latency_measurement,
        update_tenant_fsm, get_recent_latencies, is_in_cooldown, decrement_cooldown,
        add_to_group, c5_adv_state_tick1, c5_adv_tenant_tick1, c5_adv_state_tick2,
        c5_adv_tenant_tick2, c5_adv_violation]
      try simp
      try norm_num
    rw [h1]
    rw [show (([], c5_adv_state_tick1) : List Violation × StateManager).2
          = c5_adv_state_tick1 from rfl, h2]
    simp [dict_get, c5_adv_state_tick2, c5_adv_tenant_tick2]


/-- The tenants of a device group whose state is not VIOLATED in manager
state `m` — the claim's description of the candidate bullies, evaluated at
a fixed manager state. -/
def bullies_of (m : StateManager) (tenant_pids : List Int) : List Int :=
  tenant_pids.filter (fun p =>
    decide (((dict_get m.tenant_states p).getD (default_tenant p)).state
      ≠ ViolationState.VIOLATED))

theorem scan_fold_snd (m : StateManager) (tenant_pids : List Int) :
    ∀ acc : List Int × List Int,
      (tenant_pids.foldl (scan_step m) acc).2 = acc.2 ++ bullies_of m tenant_pids := by
  induction tenant_pids with
  | nil => intro acc; simp [bullies_of]
  | cons p ps ih =>
      intro acc
      rw [List.foldl_cons]
      by_cases hV : ((dict_get m.tenant_states p).getD (default_tenant p)).state
          = ViolationState.VIOLATED
      · by_cases hc : is_in_cooldown ((dict_get m.tenant_states p).getD (default_tenant p))
            = false
        · have hstep : scan_step m acc p = (acc.1 ++ [p], acc.2) := by
            simp [scan_step, hV, hc]
          rw [hstep, ih]
          simp [bullies_of, List.filter_cons, hV]
        · have hstep : scan_step m acc p = acc := by
            simp [scan_step, hV, hc]
          rw [hstep, ih]
          simp [bullies_of, List.filter_cons, hV]
      · have hstep : scan_step m acc p = (acc.1, acc.2 ++ [p]) := by
          simp [scan_step, hV]
        rw [hstep, ih]
        simp [bullies_of, List.filter_cons, hV]

theorem scan_gpu_tenants_snd (m : StateManager) (tenant_pids : List Int) :
    (scan_gpu_tenants m tenant_pids).2 = bullies_of m tenant_pids := by
  rw [scan_gpu_tenants, scan_fold_snd]
  simp

theorem detect_fold_bully_pids (gpu_uuid : List Char) (B : List Int) (now : ℚ) :
    ∀ (victims : List Int) (acc : List Violation × StateManager),
      (∀ w ∈ acc.1, w.bully_pids = B) →
      ∀ w ∈ (victims.foldl (detect_victim_step gpu_uuid B now) acc).1, w.bully_pids = B := by
  intro victims
  induction victims with
  | nil => intro acc h w hw; exact h w hw
  | cons p ps ih =>
      intro acc h w hw
      rw [List.foldl_cons] at hw
      refine ih _ ?_ w hw
      intro w2 hw2
      unfold detect_victim_step at hw2
      by_cases hr : get_recent_latencies
          ((dict_get acc.2.tenant_states p).getD (default_tenant p)) 3 = []
      · rw [if_pos hr] at hw2
        exact h w2 hw2
      · rw [if_neg hr] at hw2
        simp only [List.mem_append, List.mem_singleton] at hw2
        rcases hw2 with hw2 | hw2
        · exact h w2 hw2
        · rw [hw2]
  
/-- C3 amended: every violation emitted by `_detect_gpu_violations` carries
as its bully list exactly the tenants of the group whose state is not
VIOLATED in the manager state at the START of the scan, before any victim
of the tick is moved to COOLDOWN; a co-victim already moved to COOLDOWN in
the same tick therefore does not appear (see the counterexample).  The list
is shared by value with no later mutation, so the copy property holds. -/
theorem c3_bullies_from_scan (m : StateManager) (gpu_uuid : List Char) (tenant_pids : List Int)
    (now : ℚ) (v : Violation)
    (hv : v ∈ (detect_gpu_violations m gpu_uuid tenant_pids now).1) :
    v.bully_pids = bullies_of m tenant_pids := by
  simp only [detect_gpu_violations] at hv
  have h := detect_fold_bully_pids gpu_uuid (scan_gpu_tenants m tenant_pids).2 now
      (scan_gpu_tenants m tenant_pids).1 ([], m) (by simp) v hv
  rw [h, scan_gpu_tenants_snd]

def c3w_tenant : TenantState :=
  { pid := 1, gpu_uuid := some ['g'], state := ViolationState.VIOLATED
    latency_history := [(1, 150)], violation_count := 2, last_action_time := 0
    cooldown_remaining := 0 }

def c3w_manager : StateManager :=
  { tail_threshold_ms := 100, persistence_windows := 2, cooldown_observations := 3
    tenant_states := [(1, c3w_tenant), (2, default_tenant 2)] }

def c3w_violation : Violation :=
  { victim_pid := 1, victim_gpu := ['g'], bully_pids := [2]
    violation_severity := 1 / 2, timestamp := 5 }

set_option maxHeartbeats 1000000 in
/-- Witness for C3's amended theorem on a two-tenant group with one
violated tenant and one normal tenant. -/
theorem c3_bullies_from_scan_witness :
    c3w_violation.bully_pids = bullies_of c3w_manager [1, 2] := by
  have hrun : (detect_gpu_violations c3w_manager ['g'] [1, 2] 5).1 = [c3w_violation] := by
    norm_num [detect_gpu_violations, scan_gpu_tenants, scan_step, detect_victim_step,
      dict_get, dict_set, default_tenant, get_recent_latencies, is_in_cooldown,
      c3w_manager, c3w_tenant, c3w_violation]
    try simp
    try norm_num [detect_victim_step, dict_get, dict_set, default_tenant,
      get_recent_latencies, is_in_cooldown, c3w_violation]
    try simp
    try norm_num [detect_victim_step, dict_get, dict_set, default_tenant,
      get_recent_latencies, is_in_cooldown, c3w_violation]
    try simp
  exact c3_bullies_from_scan c3w_manager ['g'] [1, 2] 5 c3w_violation (by rw [hrun]; simp)


/-- The latest `count` sample values of a tenant in a manager state. -/
def recent_latencies_of (m : StateManager) (pid : Int) (count : Nat) : List ℚ :=
  get_recent_latencies ((dict_get m.tenant_states pid).getD (default_tenant pid)) count

theorem dvs_threshold (g : List Char) (B : List Int) (now : ℚ)
    (acc : List Violation × StateManager) (vp : Int) :
    (detect_victim_step g B now acc vp).2.tail_threshold_ms = acc.2.tail_threshold_ms := by
  simp only [detect_victim_step]
  split <;> rfl

theorem dvs_recent (g : List Char) (B : List Int) (now : ℚ)
    (acc : List Violation × StateManager) (vp p : Int) :
    recent_latencies_of (detect_victim_step g B now acc vp).2 p 3
      = recent_latencies_of acc.2 p 3 := by
  simp only [detect_victim_step]
  split
  · rfl
  · simp only [recent_latencies_of]
    rw [dict_get_dict_set]
    by_cases hp : vp = p
    · subst hp
      simp [get_recent_latencies]
    · simp [hp]

theorem detect_fold_severity (g : List Char) (B : List Int) (now : ℚ) (m : StateManager)
    (hth : 0 < m.tail_threshold_ms) :
    ∀ (victims : List Int) (acc : List Violation × StateManager),
      acc.2.tail_threshold_ms = m.tail_threshold_ms →
      (∀ p, recent_latencies_of acc.2 p 3 = recent_latencies_of m p 3) →
      (∀ w ∈ acc.1,
        (∀ x ∈ recent_latencies_of m w.victim_pid 3, m.tail_threshold_ms < x)
          → 0 ≤ w.violation_severity) →
      ∀ w ∈ (victims.foldl (detect_victim_step g B now) acc).1,
        (∀ x ∈ recent_latencies_of m w.victim_pid 3, m.tail_threshold_ms < x)
          → 0 ≤ w.violation_severity := by
  intro victims
  induction victims with
  | nil => intro acc _ _ hacc w hw; exact hacc w hw
  | cons p ps ih =>
      intro acc hth2 hrec hacc w hw
      rw [List.foldl_cons] at hw
      refine ih _ ?_ ?_ ?_ w hw
      · rw [dvs_threshold]; exact hth2
      · intro q; rw [dvs_recent]; exact hrec q
      · intro w2 hw2
        simp only [detect_victim_step] at hw2
        split at hw2
        · exact hacc w2 hw2
        · rename_i hcond
          simp only [List.mem_append, List.mem_singleton] at hw2
          rcases hw2 with hw2 | hw2
          · exact hacc w2 hw2
          · subst hw2
            intro hx
            have hrecp : get_recent_latencies
                ((dict_get acc.2.tenant_states p).getD (default_tenant p)) 3
                = recent_latencies_of m p 3 := by
              rw [← hrec p]; rfl
            rw [hrecp] at hcond
            have hx2 : ∀ x ∈ recent_latencies_of m p 3, m.tail_threshold_ms < x := hx
            have hsum := mul_length_le_sum_of_forall_lt m.tail_threshold_ms
              (recent_latencies_of m p 3) hx2
            have hlen : 0 < ((recent_latencies_of m p 3).length : ℚ) := by
              have := List.length_pos.mpr hcond
              exact_mod_cast this
            have havg : m.tail_threshold_ms
                ≤ (recent_latencies_of m p 3).sum / ((recent_latencies_of m p 3).length : ℚ) :=
              (le_div_iff hlen).mpr hsum
            simp only [hrecp, hth2]
            exact div_nonneg (by linarith) (le_of_lt hth)

/-- C4 amended: a violation's severity is non-negative provided every one
of the victim's latest (at most three) samples exceeds the threshold; the
unconditional claim is false because pre-breach samples can drag the
three-sample mean below the threshold (see the counterexample). -/
theorem c4_severity_nonneg_of_recent_breaches (m : StateManager) (gpu_uuid : List Char) (tenant_pids : List Int)
    (now : ℚ) (v : Violation)
    (hth : 0 < m.tail_threshold_ms)
    (hv : v ∈ (detect_gpu_violations m gpu_uuid tenant_pids now).1)
    (hrec : ∀ x ∈ recent_latencies_of m v.victim_pid 3, m.tail_threshold_ms < x) :
    0 ≤ v.violation_severity := by
  simp only [detect_gpu_violations] at hv
  exact detect_fold_severity gpu_uuid _ now m hth _ ([], m) rfl (fun p => rfl)
    (by simp) v hv hrec


def c4w_tenant : TenantState :=
  { pid := 1, gpu_uuid := some ['g'], state := ViolationState.VIOLATED
    latency_history := [(1, 150)], violation_count := 2, last_action_time := 0
    cooldown_remaining := 0 }

def c4w_manager : StateManager :=
  { tail_threshold_ms := 100, persistence_windows := 2, cooldown_observations := 3
    tenant_states := [(1, c4w_tenant)] }

def c4w_violation : Violation :=
  { victim_pid := 1, victim_gpu := ['g'], bully_pids := []
    violation_severity := 1 / 2, timestamp := 5 }

set_option maxHeartbeats 1000000 in
/-- Witness for C4's amended theorem on a victim whose only sample is 150
against threshold 100. -/
theorem c4_severity_nonneg_of_recent_breaches_witness : 0 ≤ c4w_violation.violation_severity := by
  have hrun : (detect_gpu_violations c4w_manager ['g'] [1] 5).1 = [c4w_violation] := by
    norm_num [detect_gpu_violations, scan_gpu_tenants, scan_step, detect_victim_step,
      dict_get, dict_set, default_tenant, get_recent_latencies, is_in_cooldown,
      c4w_manager, c4w_tenant, c4w_violation]
    try simp
    try norm_num [detect_victim_step, dict_get, dict_set, default_tenant,
      get_recent_latencies, is_in_cooldown, c4w_violation]
    try simp
    try norm_num [detect_victim_step, dict_get, dict_set, default_tenant,
      get_recent_latencies, is_in_cooldown, c4w_violation]
    try simp
  refine c4_severity_nonneg_of_recent_breaches c4w_manager ['g'] [1] 5 c4w_violation ?_ ?_ ?_
  · norm_num [c4w_manager]
  · rw [hrun]; simp
  · intro x hx
    norm_num [recent_latencies_of, get_recent_latencies, dict_get,
      c4w_manager, c4w_tenant, c4w_violation] at hx
    subst hx
    norm_num [c4w_manager]


/-- The per-tenant direction of the invariant that does hold: a tenant in
DEGRADED or VIOLATED has a positive consecutive-breach count. -/
def tenant_count_inv (t : TenantState) : Prop :=
  (t.state = ViolationState.DEGRADED ∨ t.state = ViolationState.VIOLATED) →
    0 < t.violation_count

instance (t : TenantState) : Decidable (tenant_count_inv t) := by
  unfold tenant_count_inv
  infer_instance

def manager_count_inv (m : StateManager) : Prop :=
  ∀ pt ∈ m.tenant_states, tenant_count_inv pt.2

instance (m : StateManager) : Decidable (manager_count_inv m) := by
  unfold manager_count_inv
  infer_instance

theorem tci_default (pid : Int) : tenant_count_inv (default_tenant pid) := by
  intro h
  rcases h with h | h <;> simp [default_tenant] at h

theorem tci_add_latency (t : TenantState) (l n : ℚ) (h : tenant_count_inv t) :
    tenant_count_inv (add_latency_measurement t l n) := by
  intro hx
  exact h hx

theorem tci_fsm (th : ℚ) (p : Int) (t : TenantState) (lat : ℚ) (h : tenant_count_inv t) :
    tenant_count_inv (update_tenant_fsm th p t lat) := by
  unfold update_tenant_fsm
  by_cases hb : th < lat
  · rw [if_pos hb]
    cases hs : t.state <;> simp only [hs]
    · intro _
      simp
    · have hc := h (Or.inl hs)
      split <;> intro _ <;> simp <;> omega
    · exact fun hx => h hx
    · exact fun hx => h hx
  · rw [if_neg hb]
    cases hs : t.state <;> simp only [hs]
    · exact fun hx => h hx
    · intro hx
      rcases hx with hx | hx <;> simp at hx
    · intro hx
      rcases hx with hx | hx <;> simp at hx
    · exact fun hx => h hx

theorem decrement_cooldown_state (t : TenantState) :
    (decrement_cooldown t).state = ViolationState.NORMAL
      ∨ (decrement_cooldown t).state = t.state := by
  simp only [decrement_cooldown]
  split_ifs <;> simp

theorem tci_cooldown_branch (t : TenantState) (h : tenant_count_inv t) :
    tenant_count_inv (if is_in_cooldown t then decrement_cooldown t else t) := by
  by_cases hc : is_in_cooldown t = true
  · rw [if_pos hc]
    have hs : t.state = ViolationState.COOLDOWN := by
      simp [is_in_cooldown] at hc
      exact hc.1
    intro hx
    exfalso
    rcases decrement_cooldown_state t with h1 | h1 <;>
      rcases hx with hx | hx <;> rw [h1] at hx <;> simp_all
  · rw [if_neg hc]
    exact h

theorem tci_dict_set (l : List (Int × TenantState)) (k : Int) (v : TenantState)
    (hl : ∀ pt ∈ l, tenant_count_inv pt.2) (hv : tenant_count_inv v) :
    ∀ pt ∈ dict_set l k v, tenant_count_inv pt.2 := by
  induction l with
  | nil =>
      intro pt hpt
      simp only [dict_set, List.mem_singleton] at hpt
      rw [hpt]
      exact hv
  | cons hd tl ih =>
      obtain ⟨q, u⟩ := hd
      intro pt hpt
      simp only [dict_set] at hpt
      by_cases hqk : q = k
      · rw [if_pos hqk] at hpt
        rcases List.mem_cons.mp hpt with hpt | hpt
        · rw [hpt]
          exact hv
        · exact hl pt (List.mem_cons_of_mem _ hpt)
      · rw [if_neg hqk] at hpt
        rcases List.mem_cons.mp hpt with hpt | hpt
        · rw [hpt]
          exact hl (q, u) (List.mem_cons_self _ _)
        · exact ih (fun pt2 hpt2 => hl pt2 (List.mem_cons_of_mem _ hpt2)) pt hpt

theorem tci_dict_get (l : List (Int × TenantState)) (k : Int) (t : TenantState)
    (hl : ∀ pt ∈ l, tenant_count_inv pt.2) (hg : dict_get l k = some t) :
    tenant_count_inv t := by
  induction l with
  | nil => simp [dict_get] at hg
  | cons hd tl ih =>
      obtain ⟨q, u⟩ := hd
      simp only [dict_get] at hg
      by_cases hqk : q = k
      · rw [if_pos hqk] at hg
        rw [Option.some_inj] at hg
        rw [← hg]
        exact hl (q, u) (List.mem_cons_self _ _)
      · rw [if_neg hqk] at hg
        exact ih (fun pt2 hpt2 => hl pt2 (List.mem_cons_of_mem _ hpt2)) hg

theorem mci_update_tenant_state (m : StateManager) (pid : Int) (lat now : ℚ)
    (h : manager_count_inv m) :
    manager_count_inv (update_tenant_state m pid lat now) := by
  unfold update_tenant_state manager_count_inv
  intro pt hpt
  refine tci_dict_set _ _ _ h ?_ pt hpt
  apply tci_fsm
  apply tci_add_latency
  cases hg : dict_get m.tenant_states pid with
  | none => simpa [hg] using tci_default pid
  | some t0 =>
      simp only [hg, Option.getD_some]
      exact tci_dict_get _ _ _ h hg

theorem mci_foldl_metrics (now : ℚ) :
    ∀ (metrics : List (Int × ℚ)) (m : StateManager),
      manager_count_inv m →
      manager_count_inv (metrics.foldl (apply_metric_step now) m) := by
  intro metrics
  induction metrics with
  | nil => intro m h; exact h
  | cons pl pls ih =>
      intro m h
      rw [List.foldl_cons]
      exact ih _ (mci_update_tenant_state _ _ _ _ h)

theorem mci_process_cooldowns (m : StateManager) (h : manager_count_inv m) :
    manager_count_inv (process_cooldowns m) := by
  unfold process_cooldowns manager_count_inv
  intro pt hpt
  simp only [List.mem_map] at hpt
  obtain ⟨pt0, hpt0, rfl⟩ := hpt
  exact tci_cooldown_branch pt0.2 (h pt0 hpt0)

theorem mci_cleanup (m : StateManager) (pids : List Int) (h : manager_count_inv m) :
    manager_count_inv (cleanup_stale_tenants m pids) := by
  unfold cleanup_stale_tenants manager_count_inv
  intro pt hpt
  rw [List.mem_filter] at hpt
  exact h pt hpt.1

theorem mci_group (m : StateManager) (h : manager_count_inv m) :
    manager_count_inv (group_tenants_by_gpu m).2 := by
  unfold group_tenants_by_gpu
  suffices aux : ∀ (l : List (Int × TenantState))
      (acc : List (List Char × List Int) × List (Int × TenantState)),
      (∀ pt ∈ acc.2, tenant_count_inv pt.2) → (∀ pt ∈ l, tenant_count_inv pt.2) →
      ∀ pt ∈ (l.foldl group_step acc).2, tenant_count_inv pt.2 by
    intro pt hpt
    exact aux m.tenant_states ([], []) (by simp) h pt hpt
  intro l
  induction l with
  | nil => intro acc hacc _ pt hpt; exact hacc pt hpt
  | cons hd tl ih =>
      intro acc hacc hl pt hpt
      rw [List.foldl_cons] at hpt
      refine ih _ ?_ (fun q hq => hl q (List.mem_cons_of_mem _ hq)) pt hpt
      intro q hq
      simp only [group_step, List.mem_append, List.mem_singleton] at hq
      rcases hq with hq | hq
      · exact hacc q hq
      · rw [hq]
        intro hx
        exact hl hd (List.mem_cons_self _ _) hx

theorem mci_detect_victim_fold (g : List Char) (B : List Int) (now : ℚ) :
    ∀ (victims : List Int) (acc : List Violation × StateManager),
      manager_count_inv acc.2 →
      manager_count_inv (victims.foldl (detect_victim_step g B now) acc).2 := by
  intro victims
  induction victims with
  | nil => intro acc h; exact h
  | cons p ps ih =>
      intro acc h
      rw [List.foldl_cons]
      refine ih _ ?_
      simp only [detect_victim_step]
      split
      · exact h
      · intro pt hpt
        refine tci_dict_set _ _ _ h ?_ pt hpt
        intro hx
        rcases hx with hx | hx <;> simp at hx

theorem mci_detect_violations (m : StateManager) (now : ℚ) (h : manager_count_inv m) :
    manager_count_inv (detect_violations m now).2 := by
  unfold detect_violations
  suffices aux : ∀ (groups : List (List Char × List Int))
      (acc : List Violation × StateManager),
      manager_count_inv acc.2 →
      manager_count_inv (groups.foldl (detect_group_step now) acc).2 by
    exact aux _ ([], (group_tenants_by_gpu m).2) (mci_group m h)
  intro groups
  induction groups with
  | nil => intro acc h2; exact h2
  | cons g gs ih =>
      intro acc h2
      rw [List.foldl_cons]
      refine ih _ ?_
      simp only [detect_group_step, detect_gpu_violations]
      exact mci_detect_victim_fold _ _ _ _ _ h2

/-- C5 amended: what actually holds after every `update` and
`force_cooldown` (for any reachable manager, by preservation from the empty
initial state) is the converse direction: every tenant in DEGRADED or
VIOLATED has `violation_count > 0`.  The claimed direction fails because
entering COOLDOWN does not reset the count (see the counterexample). -/
theorem c5_state_count_invariant :
    (∀ (th : ℚ) (p cd : Int), manager_count_inv (mk_state_manager th p cd))
    ∧ (∀ (m : StateManager) (metrics : List (Int × ℚ)) (now : ℚ),
        manager_count_inv m → manager_count_inv (update m metrics now).2)
    ∧ (∀ (m : StateManager) (pid : Int) (d : Option Int) (now : ℚ),
        manager_count_inv m → manager_count_inv (force_cooldown m pid d now).2) := by
  refine ⟨?_, ?_, ?_⟩
  · intro th p cd pt hpt
    simp [mk_state_manager] at hpt
  · intro m metrics now h
    unfold update
    exact mci_detect_violations _ _
      (mci_cleanup _ _ (mci_process_cooldowns _ (mci_foldl_metrics now metrics m h)))
  · intro m pid d now h
    unfold force_cooldown
    cases hg : dict_get m.tenant_states pid with
    | none => exact h
    | some t =>
        intro pt hpt
        refine tci_dict_set _ _ _ h ?_ pt hpt
        intro hx
        rcases hx with hx | hx <;> simp at hx

def c5w_tenant : TenantState :=
  { pid := 1, gpu_uuid := none, state := ViolationState.DEGRADED
    latency_history := [], violation_count := 1, last_action_time := 0
    cooldown_remaining := 0 }

def c5w_manager : StateManager :=
  { tail_threshold_ms := 100, persistence_windows := 2, cooldown_observations := 5
    tenant_states := [(1, c5w_tenant)] }

/-- Witness for C5's amended theorem on a one-tenant DEGRADED manager. -/
theorem c5_state_count_invariant_witness :
    manager_count_inv c5w_manager
    ∧ manager_count_inv (update c5w_manager [] 0).2
    ∧ manager_count_inv (force_cooldown c5w_manager 1 none 2).2 :=
  ⟨by decide, c5_state_count_invariant.2.1 c5w_manager [] 0 (by decide),
   c5_state_count_invariant.2.2 c5w_manager 1 none 2 (by decide)⟩

end ClusterHelper
